import Mathlib

/-!
Verification development for the HealthBridge AI triage core.

The Python modules under src/ai-engine are shallowly embedded here:
* strings are Lean Strings; Python string operations (lower, substring
  membership, split, startswith) are modelled on the underlying
  character lists so that every definition kernel-evaluates;
* Python floats are modelled as exact rationals (the numeric literals
  involved, 1.3, 0.7 etc., are treated as the decimal values they
  denote); Python int() on a non-negative float is the floor;
* fallible operations (dict indexing that can raise) return Option.
-/

/- Character-level helpers modelling Python string primitives. -/

def lowerChar (c : Char) : Char :=
  if 65 ≤ c.toNat ∧ c.toNat ≤ 90 then Char.ofNat (c.toNat + 32) else c

/-- Python str.lower(), as a character list (ASCII case folding). -/
def lowerStr (s : String) : List Char := s.data.map lowerChar

/-- Python `needle in hay` containment on character lists. -/
def containsSub (pat : List Char) : List Char → Bool
  | [] => pat.isEmpty
  | c :: t => pat.isPrefixOf (c :: t) || containsSub pat t

/-- Python str.split on a single separator character. -/
def splitOnChar (sep : Char) : List Char → List (List Char)
  | [] => [[]]
  | c :: t =>
    if c = sep then [] :: splitOnChar sep t
    else
      match splitOnChar sep t with
      | [] => [[c]]
      | h :: r => (c :: h) :: r

def isSpaceChar (c : Char) : Bool := c = ' ' ∨ c = '\t' ∨ c = '\n' ∨ c = '\r'

/-- Python str.strip() (whitespace trimming at both ends). -/
def trimSpaces (cs : List Char) : List Char :=
  ((cs.dropWhile isSpaceChar).reverse.dropWhile isSpaceChar).reverse

/-- Python int(...) of a decimal digit string (only applied to strings of
digits in this development, mirroring the catalog constants). -/
def digitsToNat (cs : List Char) : ℕ :=
  cs.foldl (fun a c => a * 10 + (c.toNat - 48)) 0

/-- Python int() applied to a non-negative numeric value. -/
def intTrunc (q : ℚ) : ℕ := (⌊q⌋).toNat

namespace HealthcareRoutingSystem

/- Embedding of src/ai-engine/healthcare_routing_system.py. -/

inductive HealthcareLevel where
  | ASHA | PHC | CHC | DISTRICT_HOSPITAL | MEDICAL_COLLEGE
  deriving DecidableEq, Repr

inductive UrgencyLevel where
  | ROUTINE | URGENT | EMERGENCY | CRITICAL
  deriving DecidableEq, Repr

/-- One entry of UserMedicalHistory.previous_symptoms (an episode dict). -/
structure Episode where
  date : String
  symptoms : List String
  risk_score : ℕ
  risk_level : String
  deriving DecidableEq, Repr

structure UserMedicalHistory where
  user_id : String
  chronic_conditions : List String
  allergies : List String
  current_medications : List String
  previous_symptoms : List Episode
  family_history : List String
  age : ℕ
  gender : String
  deriving DecidableEq, Repr

/-- The analysis dict flowing through analyze_with_history: keys that may be
absent in the Python dict (symptoms, recurring_pattern,
medication_interaction_risk) carry their dict-get defaults. -/
structure Analysis where
  risk_score : ℕ
  risk_level : String
  symptoms : List String := []
  recurring_pattern : Bool := false
  medication_interaction_risk : List String := []
  deriving DecidableEq, Repr

def emergency_conditions : List String :=
  ["chest_pain", "difficulty_breathing", "unconsciousness",
   "severe_bleeding", "stroke_symptoms", "heart_attack",
   "severe_burns", "poisoning", "severe_trauma"]

def phc_conditions : List String :=
  ["high_fever", "persistent_vomiting", "severe_headache",
   "abdominal_pain", "breathing_difficulty", "seizure",
   "severe_diarrhea", "wound_infection"]

def asha_conditions : List String :=
  ["mild_fever", "common_cold", "minor_cuts", "headache",
   "body_ache", "mild_cough", "skin_rash", "minor_stomach_upset"]

def chronic_condition_escalation : List (String × ℚ) :=
  [("diabetes", 13/10), ("hypertension", 12/10), ("heart_disease", 15/10),
   ("asthma", 14/10), ("kidney_disease", 13/10)]

structure AgeEscalationRule where
  group : String
  age_lo : ℕ
  age_hi : ℕ
  escalation_factor : ℚ
  deriving DecidableEq, Repr

/-- routing_rules["age_escalation"]: only the infant and elderly entries carry
an age_range; the pregnant entry is skipped by the source loop's
membership guard and plays no part in _apply_history_adjustments. -/
def age_escalation : List AgeEscalationRule :=
  [⟨"infant", 0, 2, 2⟩, ⟨"elderly", 65, 120, 15/10⟩]

/-- _has_recurring_pattern. -/
def has_recurring_pattern (previous_symptoms : List Episode)
    (current_symptoms : List String) : Bool :=
  if previous_symptoms.length < 2 then false
  else
    (previous_symptoms.drop (previous_symptoms.length - 3)).any
      (fun episode =>
        2 ≤ (current_symptoms.dedup.filter
              (fun s => episode.symptoms.contains s)).length)

/-- _check_medication_interactions. -/
def check_medication_interactions (symptoms : List String)
    (current_medications : List String) : List String :=
  (if symptoms.contains "chest_pain" ∧
      current_medications.any (fun med => containsSub "blood_thinner".data (lowerStr med))
   then ["Blood thinners may increase bleeding risk"] else []) ++
  (if symptoms.contains "fever" ∧
      current_medications.any (fun med => containsSub "steroid".data (lowerStr med))
   then ["Steroids may mask infection symptoms"] else [])

/-- _apply_history_adjustments, embedded monolithically in source order:
chronic multipliers, age escalation, recurring +10, interaction +15,
then the level recomputation. -/
def apply_history_adjustments (base : Analysis) (history : UserMedicalHistory)
    (current_symptoms : List String) : Analysis :=
  let s1 := history.chronic_conditions.foldl (fun s condition =>
    match chronic_condition_escalation.lookup condition with
    | some multiplier => min 100 (intTrunc ((s : ℚ) * multiplier))
    | none => s) base.risk_score
  let s2 := age_escalation.foldl (fun s rule =>
    if rule.age_lo ≤ history.age ∧ history.age ≤ rule.age_hi then
      min 100 (intTrunc ((s : ℚ) * rule.escalation_factor))
    else s) s1
  let recurring := has_recurring_pattern history.previous_symptoms current_symptoms
  let s3 := if recurring then min 100 (s2 + 10) else s2
  let interaction_risk :=
    if history.current_medications.isEmpty then []
    else check_medication_interactions current_symptoms history.current_medications
  let s4 := if interaction_risk.isEmpty then s3 else min 100 (s3 + 15)
  let level := if 80 ≤ s4 then "red" else if 50 ≤ s4 then "amber" else "green"
  { base with
    risk_score := s4
    risk_level := level
    recurring_pattern := base.recurring_pattern || recurring
    medication_interaction_risk :=
      if interaction_risk.isEmpty then base.medication_interaction_risk
      else interaction_risk }

structure HealthcareFacility where
  facility_id : String
  name : String
  level : HealthcareLevel
  location : List (String × String)
  services : List String
  capacity : ℕ
  current_load : ℕ
  contact_info : List (String × String)
  available_medicines : List String
  specialist_doctors : List String
  deriving DecidableEq, Repr

def asha_001 : HealthcareFacility :=
  { facility_id := "asha_001"
    name := "ASHA Worker - Sunita Devi"
    level := HealthcareLevel.ASHA
    location := [("village", "Rampur"), ("block", "Sohna"), ("district", "Gurugram")]
    services := ["basic_care", "health_education", "immunization", "anc_care"]
    capacity := 50
    current_load := 15
    contact_info := [("phone", "+91-9876543210"), ("whatsapp", "+91-9876543210")]
    available_medicines := ["paracetamol", "ors", "iron_tablets", "folic_acid"]
    specialist_doctors := [] }

def phc_001 : HealthcareFacility :=
  { facility_id := "phc_001"
    name := "Primary Health Centre - Rampur"
    level := HealthcareLevel.PHC
    location := [("village", "Rampur"), ("block", "Sohna"), ("district", "Gurugram")]
    services := ["general_medicine", "maternal_care", "child_care", "emergency_care"]
    capacity := 100
    current_load := 45
    contact_info := [("phone", "+91-9876543211"), ("emergency", "108")]
    available_medicines := ["antibiotics", "antacids", "cough_syrup", "antiseptics"]
    specialist_doctors := ["general_physician", "anm"] }

def chc_001 : HealthcareFacility :=
  { facility_id := "chc_001"
    name := "Community Health Centre - Sohna"
    level := HealthcareLevel.CHC
    location := [("town", "Sohna"), ("district", "Gurugram")]
    services := ["specialist_care", "surgery", "laboratory", "radiology", "emergency"]
    capacity := 200
    current_load := 120
    contact_info := [("phone", "+91-9876543212"), ("emergency", "108")]
    available_medicines := ["advanced_antibiotics", "cardiac_medicines", "insulin"]
    specialist_doctors := ["physician", "surgeon", "gynecologist", "pediatrician"] }

/-- _initialize_healthcare_facilities populates facilities_db in this
insertion order (Python dicts preserve insertion order). -/
def facilities_db : List HealthcareFacility := [asha_001, phc_001, chc_001]

/-- _find_nearest_facility: first facility of the requested level, else the
first registered facility.  Python's list(...)[0] raises on an empty
registry, modelled by Option. -/
def find_nearest_facility (level : HealthcareLevel) : Option HealthcareFacility :=
  match facilities_db.find? (fun facility => facility.level == level) with
  | some facility => some facility
  | none => facilities_db.head?

/-- A routing decision dict.  The contact_numbers entry (derived from the
facility's contact_info and not consulted by any claim) is not modelled. -/
structure RoutingDecision where
  level : String
  facility : Option HealthcareFacility
  urgency : UrgencyLevel
  transport : String
  estimated_time : String
  instructions : List String
  deriving DecidableEq, Repr

def route_to_emergency : RoutingDecision :=
  { level := "EMERGENCY"
    facility := find_nearest_facility HealthcareLevel.CHC
    urgency := UrgencyLevel.CRITICAL
    transport := "ambulance"
    estimated_time := "IMMEDIATE"
    instructions :=
      ["Call 108 for ambulance immediately",
       "Do not delay - go to hospital now",
       "Bring all current medications",
       "Inform family members"] }

def route_to_chc : RoutingDecision :=
  { level := "CHC"
    facility := find_nearest_facility HealthcareLevel.CHC
    urgency := UrgencyLevel.URGENT
    transport := "private_vehicle"
    estimated_time := "Within 2 hours"
    instructions :=
      ["Visit CHC within 2 hours",
       "Bring medical history and current medications",
       "May need specialist consultation",
       "Possible admission for observation"] }

def route_to_phc : RoutingDecision :=
  { level := "PHC"
    facility := find_nearest_facility HealthcareLevel.PHC
    urgency := UrgencyLevel.URGENT
    transport := "any_available"
    estimated_time := "Within 4 hours"
    instructions :=
      ["Visit PHC within 4 hours",
       "Bring previous medical records",
       "Doctor consultation recommended",
       "May need basic tests"] }

def route_to_asha : RoutingDecision :=
  { level := "ASHA"
    facility := find_nearest_facility HealthcareLevel.ASHA
    urgency := UrgencyLevel.ROUTINE
    transport := "walking"
    estimated_time := "Within 24 hours"
    instructions :=
      ["Contact ASHA worker for guidance",
       "Home care and monitoring",
       "Follow medication suggestions",
       "Return if symptoms worsen"] }

/-- _determine_healthcare_routing: emergency-symptom membership is tested
first, then the numeric red thresholds, then the amber/PHC conditions. -/
def determine_healthcare_routing (analysis : Analysis) : RoutingDecision :=
  if analysis.symptoms.any (fun symptom => emergency_conditions.contains symptom) then
    route_to_emergency
  else if analysis.risk_level = "red" ∨ 80 ≤ analysis.risk_score then
    route_to_chc
  else if analysis.risk_level = "amber" ∨ 50 ≤ analysis.risk_score ∨
      analysis.symptoms.any (fun symptom => phc_conditions.contains symptom) then
    route_to_phc
  else
    route_to_asha

structure Medicine where
  name : String
  dosage : String
  frequency : String
  duration : String
  deriving DecidableEq, Repr

structure MedInfo where
  safe_medicines : List Medicine
  home_remedies : List String
  deriving DecidableEq, Repr

/-- _load_medication_database, in source insertion order. -/
def medication_database : List (String × MedInfo) :=
  [("common_cold",
    { safe_medicines :=
        [⟨"Paracetamol", "500mg", "3 times daily", "3-5 days"⟩,
         ⟨"Cetirizine", "10mg", "Once daily", "3-5 days"⟩,
         ⟨"Honey", "1 tsp", "3 times daily", "As needed"⟩]
      home_remedies :=
        ["Warm salt water gargling", "Steam inhalation",
         "Ginger tea with honey", "Adequate rest and hydration"] }),
   ("fever",
    { safe_medicines :=
        [⟨"Paracetamol", "500mg", "Every 6 hours", "Until fever subsides"⟩,
         ⟨"ORS", "1 packet in 1L water", "As needed", "During fever"⟩]
      home_remedies :=
        ["Cold compress on forehead", "Plenty of fluids",
         "Light clothing", "Rest in cool environment"] }),
   ("headache",
    { safe_medicines :=
        [⟨"Paracetamol", "500mg", "Every 6 hours", "As needed"⟩,
         ⟨"Aspirin", "300mg", "Every 6 hours", "As needed"⟩]
      home_remedies :=
        ["Rest in dark, quiet room", "Cold or warm compress",
         "Adequate hydration", "Gentle head massage"] }),
   ("stomach_pain",
    { safe_medicines :=
        [⟨"ORS", "1 packet in 1L water", "Small sips", "Until better"⟩,
         ⟨"Antacid", "1 tablet", "After meals", "2-3 days"⟩]
      home_remedies :=
        ["BRAT diet (Banana, Rice, Apple, Toast)", "Ginger tea",
         "Avoid spicy foods", "Small frequent meals"] }),
   ("cough",
    { safe_medicines :=
        [⟨"Honey", "1 tsp", "3 times daily", "As needed"⟩,
         ⟨"Cough syrup (Dextromethorphan)", "10ml", "3 times daily", "5-7 days"⟩]
      home_remedies :=
        ["Warm water with honey and lemon", "Steam inhalation",
         "Avoid cold drinks", "Throat lozenges"] }),
   ("skin_rash",
    { safe_medicines :=
        [⟨"Calamine lotion", "Apply thin layer", "2-3 times daily", "Until healed"⟩,
         ⟨"Antihistamine (Cetirizine)", "10mg", "Once daily", "5-7 days"⟩]
      home_remedies :=
        ["Keep area clean and dry", "Avoid scratching",
         "Cool compress", "Loose cotton clothing"] })]

/-- _has_contraindication: a case-insensitive allergy match, or a hit in the
static drug-interaction table (the paracetamol row is only populated when
the history lists liver_disease). -/
def has_contraindication (medication : String) (history : UserMedicalHistory) : Bool :=
  if history.allergies.any (fun allergy => lowerStr allergy == lowerStr medication) then
    true
  else
    let interactions : List (List Char × List String) :=
      [("aspirin".data, ["warfarin", "heparin"]),
       ("paracetamol".data,
        if history.chronic_conditions.contains "liver_disease" then ["warfarin"] else [])]
    match interactions.lookup (lowerStr medication) with
    | some interacting =>
      history.current_medications.any
        (fun current_med => interacting.any (fun drug => lowerStr current_med == drug.data))
    | none => false

/-- The condition-matching test of _get_medication_suggestions:
`condition in symptom_lower or any(keyword in symptom_lower
for keyword in condition.split('_'))`. -/
def condition_matches (symptom_lower : List Char) (condition : String) : Bool :=
  containsSub condition.data symptom_lower ||
    (splitOnChar '_' condition.data).any (fun keyword => containsSub keyword symptom_lower)

structure MedicationSuggestions where
  safe_medicines : List Medicine
  home_remedies : List String
  warnings : List String
  contraindications : List String
  deriving DecidableEq, Repr

/-- The database rows matched by one symptom. -/
def matched_conditions (symptom : String) : List (String × MedInfo) :=
  medication_database.filter (fun ci => condition_matches (lowerStr symptom) ci.1)

/-- _get_medication_suggestions.  The nested append-loop of the source is
rendered as the equivalent flatMap over the matched database rows. -/
def get_medication_suggestions (symptoms : List String)
    (history : UserMedicalHistory) : MedicationSuggestions :=
  let matched := symptoms.flatMap matched_conditions
  let safe_medicines := matched.flatMap (fun ci =>
    ci.2.safe_medicines.filter (fun med => !(has_contraindication med.name history)))
  let contraindications := matched.flatMap (fun ci =>
    (ci.2.safe_medicines.filter (fun med => has_contraindication med.name history)).map
      (fun med => "Avoid " ++ med.name ++ " due to allergy/interaction"))
  let home_remedies := matched.flatMap (fun ci => ci.2.home_remedies)
  let general_warnings :=
    ["Consult healthcare provider before taking any medication",
     "Follow dosage instructions carefully",
     "Stop medication if adverse reactions occur",
     "Keep medications away from children"]
  let warnings_age :=
    if history.age < 12 then general_warnings ++ ["Pediatric dosing required - consult doctor"]
    else if 65 < history.age then
      general_warnings ++ ["Elderly patients may need dose adjustment"]
    else general_warnings
  let warnings :=
    if history.chronic_conditions.contains "pregnancy" then
      warnings_age ++ ["Pregnancy - many medications not safe, consult doctor"]
    else warnings_age
  { safe_medicines := safe_medicines
    home_remedies := home_remedies
    warnings := warnings
    contraindications := contraindications }

/-- The episode-list mutation of _update_user_history: append the new
episode, then keep only the last 10. -/
def update_previous_symptoms (previous_symptoms : List Episode)
    (episode : Episode) : List Episode :=
  let appended := previous_symptoms ++ [episode]
  if 10 < appended.length then appended.drop (appended.length - 10) else appended

/-- _get_fallback_response (the fields the claims consult). -/
structure FallbackResponse where
  user_id : String
  analysis : Analysis
  routing_level : String
  routing_urgency : UrgencyLevel
  routing_instructions : List String
  medication_warnings : List String
  error : String
  deriving DecidableEq, Repr

def get_fallback_response (user_id : String) (symptoms : List String) : FallbackResponse :=
  { user_id := user_id
    analysis := { risk_score := 50, risk_level := "amber", symptoms := symptoms }
    routing_level := "PHC"
    routing_urgency := UrgencyLevel.URGENT
    routing_instructions := ["Consult healthcare provider", "Monitor symptoms closely"]
    medication_warnings := ["Consult doctor before taking any medication"]
    error := "Analysis failed, using safe defaults" }

end HealthcareRoutingSystem

namespace SymptomAnalyzer

/- Embedding of src/ai-engine/symptom_analyzer.py (the rule-based execution
path taken when the ML models are not loaded, with list input). -/

structure AnalyzeResult where
  riskScore : ℕ
  riskLevel : String
  symptoms : List String
  recommendations : List String
  confidence : ℚ
  analysis_method : String
  deriving DecidableEq, Repr

/-- _default_response. -/
def default_response : AnalyzeResult :=
  { riskScore := 30
    riskLevel := "green"
    symptoms := []
    recommendations := ["Please describe your symptoms clearly"]
    confidence := 1/2
    analysis_method := "default" }

def critical_symptoms : List String :=
  ["chest_pain", "difficulty_breathing", "unconsciousness", "severe_bleeding"]

def high_risk_symptoms : List String :=
  ["high_fever", "severe_headache", "persistent_vomiting"]

def medium_risk_symptoms : List String :=
  ["fever", "headache", "cough", "vomiting"]

/-- The per-symptom increment of _calculate_rule_based_risk (substring tests
against the lowered symptom, in severity order). -/
def symptom_increment (symptom : String) : ℕ :=
  if critical_symptoms.any (fun cs => containsSub cs.data (lowerStr symptom)) then 60
  else if high_risk_symptoms.any (fun hrs => containsSub hrs.data (lowerStr symptom)) then 40
  else if medium_risk_symptoms.any (fun mrs => containsSub mrs.data (lowerStr symptom)) then 20
  else 10

/-- _calculate_rule_based_risk (gender is accepted and unused, as in the
source). -/
def calculate_rule_based_risk (symptoms : List String) (age : ℕ)
    (_gender : String) : ℚ :=
  let base_score : ℚ := 20 + ((symptoms.map (fun s => (symptom_increment s : ℚ))).sum)
  let adjusted :=
    if age < 5 ∨ 65 < age then base_score * (13/10)
    else if 50 < age then base_score * (11/10)
    else base_score
  min 100 adjusted

/-- _determine_risk_level. -/
def determine_risk_level (score : ℚ) : String :=
  if 70 ≤ score then "red" else if 40 ≤ score then "amber" else "green"

/-- _normalize_symptom's mapping table. -/
def symptom_mappings : List (String × String) :=
  [("बुखार", "fever"), ("सिरदर्द", "headache"), ("खांसी", "cough"),
   ("सांस लेने में तकलीफ", "difficulty_breathing"), ("छाती में दर्द", "chest_pain"),
   ("पेट दर्द", "stomach_pain"), ("उल्टी", "vomiting"), ("दस्त", "diarrhea"),
   ("कमजोरी", "fatigue"), ("गले में खराश", "sore_throat")]

/-- _normalize_symptom. -/
def normalize_symptom (symptom : String) : String :=
  let lowered := String.mk (trimSpaces (lowerStr symptom))
  (symptom_mappings.lookup lowered).getD lowered

/-- _generate_recommendations (symptoms and age accepted and unused beyond
the level dispatch, as in the source). -/
def generate_recommendations (_symptoms : List String) (risk_level : String)
    (_age : ℕ) : List String :=
  if risk_level = "red" then
    ["Seek immediate medical attention", "Call ambulance (108)",
     "Go to nearest hospital", "Do not delay treatment"]
  else if risk_level = "amber" then
    ["Contact ASHA worker", "Visit PHC for checkup",
     "Monitor symptoms closely", "Take prescribed medications"]
  else
    ["Rest and stay hydrated", "Take home remedies",
     "Monitor symptoms", "Consult doctor if symptoms worsen"]

/-- analyze, on list input along the rule-based fallback path: empty input
returns the default response; otherwise symptoms are normalized, scored by
the rule-based scorer and levelled, with confidence 0.7. -/
def analyze (symptoms : List String) (age : ℕ) (gender : String) : AnalyzeResult :=
  if symptoms.isEmpty then default_response
  else
    let symptom_names := symptoms.map normalize_symptom
    let risk_score := calculate_rule_based_risk symptom_names age gender
    let risk_level := determine_risk_level risk_score
    { riskScore := intTrunc risk_score
      riskLevel := risk_level
      symptoms := symptom_names
      recommendations := generate_recommendations symptom_names risk_level age
      confidence := 7/10
      analysis_method := "rule_based" }

end SymptomAnalyzer

namespace OfflineModels

/- Embedding of src/ai-engine/offline_models.py (the rule-based models
installed by _initialize_rule_based_models and the weighted scorer). -/

def severity_critical : List String :=
  ["chest_pain", "difficulty_breathing", "unconsciousness",
   "severe_bleeding", "stroke_symptoms", "heart_attack"]

def severity_high : List String :=
  ["high_fever", "severe_headache", "persistent_vomiting",
   "severe_abdominal_pain", "dehydration", "seizure"]

def severity_medium : List String :=
  ["fever", "headache", "cough", "vomiting", "diarrhea",
   "body_ache", "sore_throat"]

def severity_low : List String :=
  ["runny_nose", "mild_cough", "fatigue", "mild_headache",
   "sneezing", "minor_ache"]

/-- The per-symptom severity points of _calculate_severity_score. -/
def symptom_severity_points (symptom : String) : ℚ :=
  if severity_critical.contains symptom then 1
  else if severity_high.contains symptom then 8/10
  else if severity_medium.contains symptom then 5/10
  else if severity_low.contains symptom then 2/10
  else 3/10

/-- _calculate_severity_score. -/
def calculate_severity_score (symptoms : List String) : ℚ :=
  if symptoms.length = 0 then 2/10
  else min 1 (((symptoms.map symptom_severity_points).sum) / (symptoms.length : ℚ))

structure AgeRiskFactor where
  category : String
  age_lo : ℕ
  age_hi : ℕ
  risk_multiplier : ℚ
  deriving DecidableEq, Repr

/-- models['age_risk_factors'] (half-open ranges, checked in insertion
order). -/
def age_risk_factors : List AgeRiskFactor :=
  [⟨"infant", 0, 2, 15/10⟩, ⟨"child", 2, 12, 12/10⟩, ⟨"teen", 12, 18, 1⟩,
   ⟨"adult", 18, 65, 1⟩, ⟨"senior", 65, 80, 13/10⟩, ⟨"elderly", 80, 120, 15/10⟩]

/-- _get_age_factor_offline. -/
def get_age_factor_offline (age : ℕ) : ℚ :=
  match age_risk_factors.find? (fun rule => decide (rule.age_lo ≤ age ∧ age < rule.age_hi)) with
  | some rule => min 1 (rule.risk_multiplier / (15/10))
  | none => 1

/-- models['symptom_combinations']. -/
def symptom_combinations : List (List String × ℚ) :=
  [(["difficulty_breathing", "chest_pain"], 8/10),
   (["severe_headache", "vomiting", "dizziness"], 7/10),
   (["vomiting", "diarrhea", "severe_abdominal_pain"], 6/10),
   (["high_fever", "body_ache", "headache"], 5/10)]

/-- _check_symptom_combinations. -/
def check_symptom_combinations (symptoms : List String) : ℚ :=
  min 1 (symptom_combinations.foldl (fun best combo =>
    if combo.1.all (fun symptom => symptoms.contains symptom) then max best combo.2
    else best) 0)

/-- The weighted risk score of assess_risk_offline before clamping
(weights 0.4 severity, 0.2 age, 0.2 count, 0.2 combinations, scaled by
100). -/
def assess_risk_offline_raw (symptoms : List String) (age : ℕ) : ℚ :=
  (calculate_severity_score symptoms * (4/10) +
   get_age_factor_offline age * (2/10) +
   min 1 ((symptoms.length : ℚ) / 5) * (2/10) +
   check_symptom_combinations symptoms * (2/10)) * 100

/-- _determine_risk_level_offline: the threshold dict walk plus its
fallthrough. -/
def determine_risk_level_offline (risk_score : ℚ) : String :=
  if 0 ≤ risk_score ∧ risk_score < 40 then "green"
  else if 40 ≤ risk_score ∧ risk_score < 70 then "amber"
  else if 70 ≤ risk_score ∧ risk_score < 100 then "red"
  else if 70 ≤ risk_score then "red"
  else "green"

/-- assess_risk_offline's (risk_score, risk_level) pair. -/
def assess_risk_offline (symptoms : List String) (age : ℕ) : ℕ × String :=
  let risk_score := assess_risk_offline_raw symptoms age
  (intTrunc (min 100 risk_score), determine_risk_level_offline risk_score)

end OfflineModels

namespace TriageEngine

/- Embedding of src/ai-engine/triage_engine.py. -/

structure TriageDecision where
  urgency : String
  max_wait_time_minutes : ℕ
  recommended_facility : String
  transport : String
  priority : ℕ
  deriving DecidableEq, Repr

/-- The triage_rules table. -/
def triage_rules : List (String × TriageDecision) :=
  [("red", ⟨"emergency", 0, "hospital", "ambulance", 1⟩),
   ("amber", ⟨"urgent", 60, "phc", "self", 2⟩),
   ("green", ⟨"routine", 240, "home_care", "self", 3⟩)]

/-- _apply_age_adjustments. -/
def apply_age_adjustments (decision : TriageDecision) (age : ℕ)
    (risk_level : String) : TriageDecision :=
  if age < 2 then
    if risk_level = "green" then
      { decision with urgency := "urgent", priority := 2, max_wait_time_minutes := 30 }
    else decision
  else if age < 5 then
    if risk_level = "green" then { decision with max_wait_time_minutes := 120 }
    else decision
  else if 75 < age then
    if risk_level = "green" then
      { decision with urgency := "urgent", priority := 2, max_wait_time_minutes := 90 }
    else decision
  else if 65 < age then
    if risk_level = "green" then { decision with max_wait_time_minutes := 180 }
    else decision
  else decision

def triage_critical_symptoms : List String :=
  ["chest_pain", "difficulty_breathing", "severe_bleeding",
   "unconsciousness", "stroke_symptoms"]

/-- _apply_symptom_adjustments. -/
def apply_symptom_adjustments (decision : TriageDecision) (symptoms : List String)
    (risk_score : ℕ) : TriageDecision :=
  let d1 :=
    if symptoms.any (fun symptom => triage_critical_symptoms.contains symptom) then
      { decision with
        urgency := "emergency"
        priority := 1
        transport := "ambulance"
        recommended_facility := "hospital"
        max_wait_time_minutes := 0 }
    else decision
  let d2 :=
    if symptoms.contains "high_fever" ∧ 1 < symptoms.length then
      if d1.urgency = "routine" then { d1 with urgency := "urgent", priority := 2 }
      else d1
    else d1
  if 3 ≤ symptoms.length ∧ 50 < risk_score then
    if d2.urgency = "routine" then
      { d2 with
        urgency := "urgent"
        max_wait_time_minutes := min d2.max_wait_time_minutes 120 }
    else d2
  else d2

end TriageEngine

namespace EnhancedSymptomAnalyzer

/- Embedding of src/ai-engine/enhanced_symptom_analyzer.py (disease
pattern matching). -/

structure DiseasePattern where
  name : String
  symptoms : List String
  risk_factors : List String
  urgency : String
  confidence_threshold : ℚ
  deriving DecidableEq, Repr

/-- _load_disease_patterns, in source declaration order. -/
def disease_patterns : List DiseasePattern :=
  [⟨"myocardial_infarction",
    ["chest_pain", "difficulty_breathing", "sweating", "nausea", "left_arm_pain"],
    ["age>50", "male", "diabetes", "hypertension", "smoking"], "critical", 8/10⟩,
   ⟨"angina",
    ["chest_pain", "shortness_of_breath", "fatigue"],
    ["age>40", "diabetes", "hypertension"], "urgent", 7/10⟩,
   ⟨"pneumonia",
    ["fever", "cough", "chest_pain", "difficulty_breathing", "fatigue"],
    ["age>65", "age<5", "chronic_lung_disease"], "urgent", 75/100⟩,
   ⟨"asthma_attack",
    ["difficulty_breathing", "wheezing", "chest_tightness", "cough"],
    ["asthma_history", "allergies"], "urgent", 8/10⟩,
   ⟨"stroke",
    ["sudden_weakness", "speech_difficulty", "facial_drooping", "confusion"],
    ["age>50", "hypertension", "diabetes", "heart_disease"], "critical", 85/100⟩,
   ⟨"meningitis",
    ["severe_headache", "neck_stiffness", "fever", "photophobia", "vomiting"],
    ["age<5", "immunocompromised"], "critical", 8/10⟩,
   ⟨"appendicitis",
    ["abdominal_pain", "nausea", "vomiting", "fever"],
    ["age_10_30"], "urgent", 75/100⟩,
   ⟨"gastroenteritis",
    ["diarrhea", "vomiting", "abdominal_cramps", "fever"],
    ["recent_travel", "food_poisoning"], "routine", 6/10⟩,
   ⟨"malaria",
    ["fever", "chills", "headache", "muscle_aches", "fatigue"],
    ["endemic_area", "recent_travel"], "urgent", 7/10⟩,
   ⟨"dengue",
    ["high_fever", "severe_headache", "eye_pain", "muscle_pain", "rash"],
    ["monsoon_season", "endemic_area"], "urgent", 75/100⟩,
   ⟨"covid19",
    ["fever", "cough", "fatigue", "loss_of_taste", "difficulty_breathing"],
    ["age>60", "diabetes", "hypertension", "exposure"], "urgent", 7/10⟩,
   ⟨"common_cold",
    ["runny_nose", "sore_throat", "mild_cough", "sneezing"],
    [], "routine", 6/10⟩,
   ⟨"migraine",
    ["severe_headache", "nausea", "light_sensitivity", "sound_sensitivity"],
    ["stress", "female", "family_history"], "routine", 7/10⟩,
   ⟨"urinary_tract_infection",
    ["dysuria", "frequent_urination", "pelvic_pain", "fever"],
    ["female", "diabetes", "pregnancy"], "urgent", 7/10⟩]

/-- The user_info dict fields consulted by the risk-factor predicates. -/
structure UserInfo where
  age : ℕ
  gender : String
  chronic_conditions : List String
  deriving DecidableEq, Repr

/-- One risk factor test of _get_matching_risk_factors.  The branches fall
through exactly as the Python elif chain does: an age>/age< factor whose
numeric comparison fails, or a male/female factor with a non-matching
gender, still drops to the chronic-condition membership test. -/
def risk_factor_matches (info : UserInfo) (factor : String) : Bool :=
  if ("age>".data).isPrefixOf factor.data ∧ digitsToNat (factor.data.drop 4) < info.age then
    true
  else if ("age<".data).isPrefixOf factor.data ∧ info.age < digitsToNat (factor.data.drop 4) then
    true
  else if factor = "male" ∧ info.gender = "male" then true
  else if factor = "female" ∧ info.gender = "female" then true
  else info.chronic_conditions.contains factor

/-- len(set(symptoms) & set(disease_symptoms)). -/
def matching_symptom_count (symptoms disease_symptoms : List String) : ℕ :=
  (symptoms.dedup.filter (fun s => disease_symptoms.contains s)).length

/-- _calculate_disease_confidence. -/
def disease_confidence (symptoms : List String) (pattern : DiseasePattern)
    (info : UserInfo) : ℚ :=
  let matching := matching_symptom_count symptoms pattern.symptoms
  let symptom_score : ℚ :=
    if pattern.symptoms.isEmpty then 0
    else (matching : ℚ) / (pattern.symptoms.length : ℚ)
  let risk_factor_score : ℚ :=
    if pattern.risk_factors.isEmpty then 0
    else ((pattern.risk_factors.filter (risk_factor_matches info)).length : ℚ) /
      (pattern.risk_factors.length : ℚ)
  let confidence := symptom_score * (7/10) + risk_factor_score * (3/10)
  let confidence :=
    if (pattern.symptoms.length : ℚ) * (8/10) ≤ (matching : ℚ) then confidence + 1/10
    else confidence
  min 1 confidence

/-- Python round(x, 3) (round-half-to-even at exact midpoints in Python;
modelled as round-half-up, which agrees everywhere the two differ only at
exact 0.0005 midpoints). -/
def round3 (q : ℚ) : ℚ := (⌊q * 1000 + 1/2⌋ : ℚ) / 1000

structure DiseasePrediction where
  disease : String
  confidence : ℚ
  matching_symptoms : List String
  risk_factors_present : List String
  urgency : String
  deriving DecidableEq, Repr

/-- The prediction dict built by _detect_diseases for one pattern (the
description string is a static lookup not consulted by any claim and is
not modelled; matching_symptoms is Python's set intersection, determinized
here in first-occurrence order). -/
def mk_prediction (symptoms : List String) (info : UserInfo)
    (pattern : DiseasePattern) : DiseasePrediction :=
  { disease := pattern.name
    confidence := round3 (disease_confidence symptoms pattern info)
    matching_symptoms := symptoms.dedup.filter (fun s => pattern.symptoms.contains s)
    risk_factors_present := pattern.risk_factors.filter (risk_factor_matches info)
    urgency := pattern.urgency }

/-- The predictions passing their pattern's threshold, in catalog
declaration order. -/
def eligible_predictions (symptoms : List String) (info : UserInfo) :
    List DiseasePrediction :=
  (disease_patterns.filter (fun pattern =>
    decide (pattern.confidence_threshold ≤ disease_confidence symptoms pattern info))).map
    (mk_prediction symptoms info)

/-- A stable descending insertion by confidence: the new element goes in
front of every element of equal confidence that was earlier in the list
being sorted from the right, which reproduces Python's stable
sort(reverse=True) on the stored confidence key. -/
def insert_desc (x : DiseasePrediction) : List DiseasePrediction → List DiseasePrediction
  | [] => [x]
  | y :: ys => if x.confidence < y.confidence then y :: insert_desc x ys else x :: y :: ys

def sort_desc : List DiseasePrediction → List DiseasePrediction
  | [] => []
  | x :: xs => insert_desc x (sort_desc xs)

/-- _detect_diseases: threshold filter, stable sort descending by the
(rounded) confidence, top five. -/
def detect_diseases (symptoms : List String) (info : UserInfo) :
    List DiseasePrediction :=
  (sort_desc (eligible_predictions symptoms info)).take 5

end EnhancedSymptomAnalyzer

namespace HealthcareRoutingSystem

/- Spec-side decomposition of the history adjuster, written from the
specification text for comparison with the monolithic embedding above. -/

/-- Spec step 1: for each of the patient's chronic conditions matching the
static escalation table, multiply the score by its factor and re-clamp. -/
def chronic_step (chronic_conditions : List String) (score : ℕ) : ℕ :=
  chronic_conditions.foldl (fun s condition =>
    match chronic_condition_escalation.lookup condition with
    | some multiplier => min 100 (intTrunc ((s : ℚ) * multiplier))
    | none => s) score

/-- Spec step 2: infant (ages 0-2) times 2.0 then elderly (ages 65-120)
times 1.5, re-clamping after each multiplication. -/
def age_step (age : ℕ) (score : ℕ) : ℕ :=
  let s1 := if age ≤ 2 then min 100 (intTrunc ((score : ℚ) * 2)) else score
  if 65 ≤ age ∧ age ≤ 120 then min 100 (intTrunc ((s1 : ℚ) * (15/10))) else s1

/-- Spec step 3: flat +10 (clamped) when the recurring pattern fires. -/
def recurring_step (fired : Bool) (score : ℕ) : ℕ :=
  if fired then min 100 (score + 10) else score

/-- Spec step 4: flat +15 (clamped) when a medication interaction fires. -/
def interaction_step (fired : Bool) (score : ℕ) : ℕ :=
  if fired then min 100 (score + 15) else score

/-- The adjusted level thresholds (80 red, 50 amber). -/
def adjusted_risk_level (score : ℕ) : String :=
  if 80 ≤ score then "red" else if 50 ≤ score then "amber" else "green"

/-- The interaction list the adjuster consults (empty when the patient has
no current medications). -/
def interaction_risk_of (history : UserMedicalHistory)
    (current_symptoms : List String) : List String :=
  if history.current_medications.isEmpty then []
  else check_medication_interactions current_symptoms history.current_medications

end HealthcareRoutingSystem

/-- The green < amber < red ordering used to state monotonicity of the
level-from-score step functions. -/
def level_rank : String → ℕ
  | "amber" => 1
  | "red" => 2
  | _ => 0

/- Concrete records used by the witness theorems. -/

def episode_fh : HealthcareRoutingSystem.Episode :=
  { date := "2025-01-01", symptoms := ["fever", "headache"],
    risk_score := 30, risk_level := "green" }

/-- A history holding exactly one stored episode sharing two symptoms with
the current complaint. -/
def history_one_episode : HealthcareRoutingSystem.UserMedicalHistory :=
  { user_id := "u1", chronic_conditions := [], allergies := [],
    current_medications := [], previous_symptoms := [episode_fh],
    family_history := [], age := 30, gender := "unknown" }

/-- The same history with two stored episodes. -/
def history_two_episodes : HealthcareRoutingSystem.UserMedicalHistory :=
  { user_id := "u1", chronic_conditions := [], allergies := [],
    current_medications := [], previous_symptoms := [episode_fh, episode_fh],
    family_history := [], age := 30, gender := "unknown" }

/-- A history whose allergies list case-insensitively contains aspirin. -/
def history_aspirin_allergy : HealthcareRoutingSystem.UserMedicalHistory :=
  { user_id := "u2", chronic_conditions := [], allergies := ["aspirin"],
    current_medications := [], previous_symptoms := [],
    family_history := [], age := 30, gender := "unknown" }

def base_analysis_30 : HealthcareRoutingSystem.Analysis :=
  { risk_score := 30, risk_level := "green" }

def base_analysis_90 : HealthcareRoutingSystem.Analysis :=
  { risk_score := 90, risk_level := "red" }

def user_info_mi : EnhancedSymptomAnalyzer.UserInfo :=
  { age := 55, gender := "male", chronic_conditions := ["diabetes"] }

open HealthcareRoutingSystem in
/-- C1: any symptom list containing an emergency-override symptom makes
_determine_healthcare_routing return the EMERGENCY level (with critical
urgency), for every numeric risk score and risk level: the membership
check precedes and overrides the numeric thresholds. -/
theorem c1_emergency_override (analysis : Analysis)
    (h : ∃ s ∈ analysis.symptoms, s ∈ emergency_conditions) :
    (determine_healthcare_routing analysis).level = "EMERGENCY" ∧
    (determine_healthcare_routing analysis).urgency = UrgencyLevel.CRITICAL := by
  obtain ⟨s, hs, hmem⟩ := h
  have hany : analysis.symptoms.any
      (fun symptom => emergency_conditions.contains symptom) = true := by
    rw [List.any_eq_true]
    refine ⟨s, hs, ?_⟩
    simpa using hmem
  simp only [determine_healthcare_routing, hany]
  exact ⟨rfl, rfl⟩

open HealthcareRoutingSystem in
/-- C1 witness: a chest_pain complaint with a green level and zero score is
still routed to EMERGENCY. -/
theorem c1_emergency_override_witness :
    (determine_healthcare_routing
      { risk_score := 0, risk_level := "green", symptoms := ["chest_pain"] }).level =
      "EMERGENCY" :=
  (c1_emergency_override
    { risk_score := 0, risk_level := "green", symptoms := ["chest_pain"] }
    ⟨"chest_pain", by decide, by decide⟩).1

open HealthcareRoutingSystem in
/-- C10: over the registry initialized at construction, facility selection
always returns a facility (never none): each of the five tiers resolves to
the first registered facility of that tier when one exists (ASHA, PHC, CHC),
and falls back to the first registered facility (the ASHA worker) for the
tiers with no registered facility. -/
theorem c10_facility_selection_total :
    (∀ level : HealthcareLevel, (find_nearest_facility level).isSome = true) ∧
    find_nearest_facility HealthcareLevel.ASHA = some asha_001 ∧
    find_nearest_facility HealthcareLevel.PHC = some phc_001 ∧
    find_nearest_facility HealthcareLevel.CHC = some chc_001 ∧
    find_nearest_facility HealthcareLevel.DISTRICT_HOSPITAL = some asha_001 ∧
    find_nearest_facility HealthcareLevel.MEDICAL_COLLEGE = some asha_001 ∧
    asha_001 ∈ facilities_db ∧ phc_001 ∈ facilities_db ∧ chc_001 ∈ facilities_db ∧
    asha_001.level = HealthcareLevel.ASHA ∧ phc_001.level = HealthcareLevel.PHC ∧
    chc_001.level = HealthcareLevel.CHC ∧
    facilities_db.head? = some asha_001 := by
  refine ⟨fun level => ?_, ?_, ?_, ?_, ?_, ?_, ?_, ?_, ?_, ?_, ?_, ?_, ?_⟩
  · cases level <;> rfl
  all_goals decide

open SymptomAnalyzer HealthcareRoutingSystem in
/-- C7: empty symptom input yields the structurally complete default
assessment, whose level is green with a low (below-amber) score and in
particular is never red; and the internal-failure fallback response has an
amber, never red, risk level. -/
theorem c7_safe_defaults :
    (∀ age gender, analyze [] age gender = default_response) ∧
    default_response.riskLevel = "green" ∧
    default_response.riskScore = 30 ∧
    default_response.riskScore < 40 ∧
    determine_risk_level (default_response.riskScore : ℚ) = "green" ∧
    default_response.riskLevel ≠ "red" ∧
    (∀ user_id symptoms,
      (get_fallback_response user_id symptoms).analysis.risk_level = "amber" ∧
      (get_fallback_response user_id symptoms).analysis.risk_level ≠ "red") := by
  refine ⟨fun age gender => rfl, rfl, rfl, by decide, ?_, by decide,
    fun user_id symptoms => ⟨rfl, ?_⟩⟩
  · norm_num [determine_risk_level, default_response]
  · rw [show (get_fallback_response user_id symptoms).analysis.risk_level = "amber" from rfl]
    decide

open HealthcareRoutingSystem in
/-- Auxiliary: running the episode-append-and-cap update over a whole list
from any accumulator holding at most 10 episodes keeps exactly the most
recent 10 entries of the combined sequence. -/
theorem foldl_update_previous_symptoms (episodes : List Episode) :
    ∀ acc : List Episode, acc.length ≤ 10 →
      episodes.foldl update_previous_symptoms acc =
        (acc ++ episodes).drop (acc.length + episodes.length - 10) := by
  induction episodes with
  | nil =>
    intro acc hacc
    simp [Nat.sub_eq_zero_of_le, hacc]
  | cons e rest ih =>
    intro acc hacc
    rcases Nat.lt_or_ge acc.length 10 with h | h
    · have hupd : update_previous_symptoms acc e = acc ++ [e] := by
        simp only [update_previous_symptoms]
        rw [if_neg]
        simp
        omega
      have hlen : (acc ++ [e]).length ≤ 10 := by simp; omega
      calc (e :: rest).foldl update_previous_symptoms acc
          = rest.foldl update_previous_symptoms (acc ++ [e]) := by
            simp [List.foldl_cons, hupd]
        _ = ((acc ++ [e]) ++ rest).drop ((acc ++ [e]).length + rest.length - 10) :=
            ih (acc ++ [e]) hlen
        _ = (acc ++ e :: rest).drop (acc.length + (e :: rest).length - 10) := by
            rw [List.append_assoc, List.singleton_append]
            congr 1
            simp
            omega
    · have h10 : acc.length = 10 := le_antisymm hacc h
      have hupd : update_previous_symptoms acc e = (acc ++ [e]).drop 1 := by
        simp only [update_previous_symptoms]
        rw [if_pos]
        · congr 1
          simp [h10]
        · simp [h10]
      have hlen : ((acc ++ [e]).drop 1).length ≤ 10 := by simp [h10]
      calc (e :: rest).foldl update_previous_symptoms acc
          = rest.foldl update_previous_symptoms ((acc ++ [e]).drop 1) := by
            simp [List.foldl_cons, hupd]
        _ = (((acc ++ [e]).drop 1) ++ rest).drop
              (((acc ++ [e]).drop 1).length + rest.length - 10) :=
            ih ((acc ++ [e]).drop 1) hlen
        _ = (acc ++ e :: rest).drop (acc.length + (e :: rest).length - 10) := by
            have hidx : ((acc ++ [e]).drop 1).length + rest.length - 10 = rest.length := by
              simp only [List.length_drop, List.length_append, List.length_singleton]
              omega
            have hsplit : (acc ++ [e]).drop 1 ++ rest = ((acc ++ [e]) ++ rest).drop 1 :=
              (List.drop_append_of_le_length (by simp)).symm
            rw [hidx, hsplit, List.drop_drop, List.append_assoc, List.singleton_append]
            congr 1
            simp only [List.length_cons]
            omega

open HealthcareRoutingSystem in
/-- C5: each assessment appends an episode to the user's stored sequence and
caps it to the 10 most recent entries, oldest evicted first; in particular
15 sequential assessments leave exactly the last 10 episodes, in
chronological order. -/
theorem c5_history_cap :
    (∀ (previous : List Episode) (episode : Episode), previous.length < 10 →
        update_previous_symptoms previous episode = previous ++ [episode]) ∧
    (∀ episodes : List Episode,
        episodes.foldl update_previous_symptoms [] =
          episodes.drop (episodes.length - 10)) ∧
    (∀ episodes : List Episode, episodes.length = 15 →
        (episodes.foldl update_previous_symptoms []).length = 10 ∧
        episodes.foldl update_previous_symptoms [] = episodes.drop 5) := by
  have hfold : ∀ episodes : List Episode,
      episodes.foldl update_previous_symptoms [] =
        episodes.drop (episodes.length - 10) := by
    intro episodes
    have := foldl_update_previous_symptoms episodes [] (by simp)
    simpa using this
  refine ⟨?_, hfold, ?_⟩
  · intro previous episode hlt
    simp only [update_previous_symptoms]
    rw [if_neg]
    simp
    omega
  · intro episodes h15
    constructor
    · rw [hfold, List.length_drop, h15]
    · rw [hfold, h15]

open HealthcareRoutingSystem in
/-- C5 witness: fifteen identical assessments leave a 10-episode history
equal to the last ten of the submitted sequence, and an append below the
cap is a plain append. -/
theorem c5_history_cap_witness :
    ((List.replicate 15 episode_fh).foldl update_previous_symptoms []).length = 10 ∧
    (List.replicate 15 episode_fh).foldl update_previous_symptoms [] =
      (List.replicate 15 episode_fh).drop 5 ∧
    update_previous_symptoms [] episode_fh = [episode_fh] := by
  have h := c5_history_cap.2.2 (List.replicate 15 episode_fh) (by simp)
  exact ⟨h.1, h.2, c5_history_cap.1 [] episode_fh (by simp)⟩

open TriageEngine in
/-- Auxiliary: the symptom-specific adjustments only ever leave the urgency
unchanged or raise it to emergency or urgent. -/
theorem apply_symptom_adjustments_urgency_cases (d : TriageDecision)
    (symptoms : List String) (risk_score : ℕ) :
    (apply_symptom_adjustments d symptoms risk_score).urgency = d.urgency ∨
    (apply_symptom_adjustments d symptoms risk_score).urgency = "emergency" ∨
    (apply_symptom_adjustments d symptoms risk_score).urgency = "urgent" := by
  simp only [apply_symptom_adjustments]
  split_ifs <;> simp_all

open TriageEngine in
/-- Auxiliary: the symptom-specific adjustments never downgrade an
emergency urgency. -/
theorem apply_symptom_adjustments_keeps_emergency (d : TriageDecision)
    (symptoms : List String) (risk_score : ℕ) (h : d.urgency = "emergency") :
    (apply_symptom_adjustments d symptoms risk_score).urgency = "emergency" := by
  simp only [apply_symptom_adjustments]
  split_ifs <;> simp_all

open TriageEngine in
/-- C8: after category selection, a patient younger than 2 or older than 75
never resolves to routine urgency: a routine (green) base category is
upgraded to urgent, and the upgrade never downgrades an emergency
categorization; the subsequent symptom adjustments cannot reintroduce
routine. -/
theorem c8_age_floor (risk_level : String) (d : TriageDecision) (age : ℕ)
    (symptoms : List String) (risk_score : ℕ)
    (hd : triage_rules.lookup risk_level = some d)
    (hage : age < 2 ∨ 75 < age) :
    (apply_age_adjustments d age risk_level).urgency ≠ "routine" ∧
    (apply_symptom_adjustments (apply_age_adjustments d age risk_level)
      symptoms risk_score).urgency ≠ "routine" ∧
    (risk_level = "green" → (apply_age_adjustments d age risk_level).urgency = "urgent") ∧
    (d.urgency = "emergency" →
      (apply_age_adjustments d age risk_level).urgency = "emergency") ∧
    ((apply_age_adjustments d age risk_level).urgency = "emergency" →
      (apply_symptom_adjustments (apply_age_adjustments d age risk_level)
        symptoms risk_score).urgency = "emergency") := by
  have hnr : ∀ d' : TriageDecision, d'.urgency ≠ "routine" →
      (apply_symptom_adjustments d' symptoms risk_score).urgency ≠ "routine" := by
    intro d' hd'
    rcases apply_symptom_adjustments_urgency_cases d' symptoms risk_score with h | h | h <;>
      simp_all
  have haged_same : risk_level ≠ "green" →
      apply_age_adjustments d age risk_level = d := by
    intro hne
    simp only [apply_age_adjustments]
    split_ifs <;> simp_all
  have haged_green : risk_level = "green" →
      (apply_age_adjustments d age risk_level).urgency = "urgent" := by
    intro hg
    rcases hage with h2 | h75
    · simp [apply_age_adjustments, h2, hg]
    · have hn2 : ¬ age < 2 := by omega
      have hn5 : ¬ age < 5 := by omega
      simp [apply_age_adjustments, hn2, hn5, h75, hg]
  by_cases hred : risk_level = "red"
  · subst hred
    simp only [triage_rules, List.lookup] at hd
    simp at hd
    have haged := haged_same (by decide)
    rw [haged]
    have hurg : d.urgency = "emergency" := by rw [hd.symm]
    refine ⟨?_, ?_, ?_, ?_, ?_⟩
    · simp [hurg]
    · exact hnr d (by simp [hurg])
    · intro h
      exact absurd h (by decide)
    · intro _
      exact hurg
    · intro _
      exact apply_symptom_adjustments_keeps_emergency d symptoms risk_score hurg
  by_cases hamber : risk_level = "amber"
  · subst hamber
    simp only [triage_rules, List.lookup] at hd
    simp at hd
    have haged := haged_same (by decide)
    rw [haged]
    have hurg : d.urgency = "urgent" := by rw [hd.symm]
    refine ⟨?_, ?_, ?_, ?_, ?_⟩
    · simp [hurg]
    · exact hnr d (by simp [hurg])
    · intro h
      exact absurd h (by decide)
    · intro h
      rw [hurg] at h
      exact absurd h (by decide)
    · intro h
      exact apply_symptom_adjustments_keeps_emergency d symptoms risk_score h
  by_cases hgreen : risk_level = "green"
  · subst hgreen
    simp only [triage_rules, List.lookup] at hd
    simp at hd
    have hup := haged_green rfl
    have hurg : d.urgency = "routine" := by rw [hd.symm]
    refine ⟨?_, ?_, ?_, ?_, ?_⟩
    · simp [hup]
    · exact hnr _ (by simp [hup])
    · intro _
      exact hup
    · intro h
      rw [hurg] at h
      exact absurd h (by decide)
    · intro h
      exact apply_symptom_adjustments_keeps_emergency _ symptoms risk_score h
  · exfalso
    have h1 : (risk_level == "red") = false := beq_eq_false_iff_ne.mpr hred
    have h2 : (risk_level == "amber") = false := beq_eq_false_iff_ne.mpr hamber
    have h3 : (risk_level == "green") = false := beq_eq_false_iff_ne.mpr hgreen
    simp [triage_rules, List.lookup, h1, h2, h3] at hd

open TriageEngine in
/-- C8 witness: a one-year-old with an otherwise routine (green) decision is
upgraded to urgent. -/
theorem c8_age_floor_witness :
    (apply_age_adjustments ⟨"routine", 240, "home_care", "self", 3⟩ 1 "green").urgency ≠
      "routine" ∧
    (apply_age_adjustments ⟨"routine", 240, "home_care", "self", 3⟩ 1 "green").urgency =
      "urgent" := by
  have h := c8_age_floor "green" ⟨"routine", 240, "home_care", "self", 3⟩ 1 [] 0
    (by decide) (by decide)
  exact ⟨h.1, h.2.2.1 rfl⟩

open SymptomAnalyzer in
/-- Auxiliary: the rule-based risk score is clamped into [0, 100]. -/
theorem calculate_rule_based_risk_bounds (symptoms : List String) (age : ℕ)
    (gender : String) :
    0 ≤ calculate_rule_based_risk symptoms age gender ∧
    calculate_rule_based_risk symptoms age gender ≤ 100 := by
  have hsum : 0 ≤ ((symptoms.map (fun s => (symptom_increment s : ℚ))).sum) := by
    apply List.sum_nonneg
    intro x hx
    simp only [List.mem_map] at hx
    obtain ⟨a, _, rfl⟩ := hx
    positivity
  simp only [calculate_rule_based_risk]
  refine ⟨le_min (by norm_num) ?_, min_le_left _ _⟩
  split_ifs <;> nlinarith

open OfflineModels in
/-- Auxiliary: severity factor bounds. -/
theorem calculate_severity_score_bounds (symptoms : List String) :
    0 ≤ calculate_severity_score symptoms ∧ calculate_severity_score symptoms ≤ 1 := by
  simp only [calculate_severity_score]
  split_ifs with h
  · norm_num
  · refine ⟨le_min (by norm_num) ?_, min_le_left _ _⟩
    apply div_nonneg
    · apply List.sum_nonneg
      intro x hx
      simp only [List.mem_map] at hx
      obtain ⟨a, _, rfl⟩ := hx
      simp only [symptom_severity_points]
      split_ifs <;> norm_num
    · positivity

open OfflineModels in
/-- Auxiliary: age factor bounds. -/
theorem get_age_factor_offline_bounds (age : ℕ) :
    0 ≤ get_age_factor_offline age ∧ get_age_factor_offline age ≤ 1 := by
  simp only [get_age_factor_offline]
  cases hf : age_risk_factors.find?
      (fun rule => decide (rule.age_lo ≤ age ∧ age < rule.age_hi)) with
  | none => norm_num
  | some rule =>
    have hr : rule ∈ age_risk_factors := List.mem_of_find?_eq_some hf
    have hmul : 0 ≤ rule.risk_multiplier := by
      fin_cases hr <;> norm_num
    refine ⟨le_min (by norm_num) ?_, min_le_left _ _⟩
    apply div_nonneg hmul
    norm_num

open OfflineModels in
/-- Auxiliary: the combination foldl never drops below its initial value. -/
theorem combo_foldl_ge (symptoms : List String) (l : List (List String × ℚ)) :
    ∀ init : ℚ, init ≤ l.foldl (fun best combo =>
      if combo.1.all (fun symptom => symptoms.contains symptom) then max best combo.2
      else best) init := by
  induction l with
  | nil => intro init; simp
  | cons c rest ih =>
    intro init
    refine le_trans ?_ (ih _)
    dsimp only
    split_ifs
    · exact le_max_left _ _
    · exact le_refl _

open OfflineModels in
/-- Auxiliary: combination factor bounds. -/
theorem check_symptom_combinations_bounds (symptoms : List String) :
    0 ≤ check_symptom_combinations symptoms ∧ check_symptom_combinations symptoms ≤ 1 := by
  simp only [check_symptom_combinations]
  exact ⟨le_min (by norm_num) (combo_foldl_ge symptoms symptom_combinations 0),
    min_le_left _ _⟩

open OfflineModels in
/-- Auxiliary: the offline weighted raw score lies in [0, 100]. -/
theorem assess_risk_offline_raw_bounds (symptoms : List String) (age : ℕ) :
    0 ≤ assess_risk_offline_raw symptoms age ∧
    assess_risk_offline_raw symptoms age ≤ 100 := by
  obtain ⟨ha0, ha1⟩ := calculate_severity_score_bounds symptoms
  obtain ⟨hb0, hb1⟩ := get_age_factor_offline_bounds age
  obtain ⟨hd0, hd1⟩ := check_symptom_combinations_bounds symptoms
  have hc0 : (0:ℚ) ≤ min 1 ((symptoms.length : ℚ) / 5) := le_min (by norm_num) (by positivity)
  have hc1 : min 1 ((symptoms.length : ℚ) / 5) ≤ 1 := min_le_left _ _
  simp only [assess_risk_offline_raw]
  constructor <;> nlinarith

open OfflineModels in
/-- Auxiliary: the integer risk score reported by assess_risk_offline is at
most 100. -/
theorem assess_risk_offline_score_le (symptoms : List String) (age : ℕ) :
    (assess_risk_offline symptoms age).1 ≤ 100 := by
  simp only [assess_risk_offline, intTrunc]
  have h1 : (⌊min 100 (assess_risk_offline_raw symptoms age)⌋ : ℤ) ≤ 100 := by
    calc (⌊min 100 (assess_risk_offline_raw symptoms age)⌋ : ℤ)
        ≤ ⌊(100 : ℚ)⌋ := Int.floor_mono (min_le_left _ _)
      _ = 100 := by norm_num
  omega

open HealthcareRoutingSystem in
/-- Auxiliary: the chronic-condition multiplier chain re-clamps at every
step, so it never pushes a score above 100. -/
theorem chronic_step_le (chronic_conditions : List String) :
    ∀ score : ℕ, score ≤ 100 → chronic_step chronic_conditions score ≤ 100 := by
  induction chronic_conditions with
  | nil => intro score h; simpa [chronic_step] using h
  | cons c rest ih =>
    intro score h
    simp only [chronic_step, List.foldl_cons]
    cases hc : chronic_condition_escalation.lookup c with
    | none =>
      have := ih score h
      simpa [chronic_step, hc] using this
    | some multiplier =>
      have := ih (min 100 (intTrunc ((score : ℚ) * multiplier))) (min_le_left _ _)
      simpa [chronic_step, hc] using this

open HealthcareRoutingSystem in
/-- Auxiliary: the age escalation step preserves the 100 cap. -/
theorem age_step_le (age : ℕ) (score : ℕ) (h : score ≤ 100) :
    age_step age score ≤ 100 := by
  simp only [age_step]
  split_ifs <;> simp [h, min_le_left]

open HealthcareRoutingSystem in
/-- Auxiliary: the monolithic history adjuster equals the four-step spec
decomposition (chronic multipliers, age escalation, +10 recurring,
+15 interaction) followed by the 80/50 level recomputation. -/
theorem apply_history_adjustments_eq (base : Analysis)
    (history : UserMedicalHistory) (current_symptoms : List String) :
    apply_history_adjustments base history current_symptoms =
      (let fired_recurring :=
        has_recurring_pattern history.previous_symptoms current_symptoms
       let interaction := interaction_risk_of history current_symptoms
       let s4 := interaction_step (!interaction.isEmpty)
         (recurring_step fired_recurring
           (age_step history.age
             (chronic_step history.chronic_conditions base.risk_score)))
       { base with
         risk_score := s4
         risk_level := adjusted_risk_level s4
         recurring_pattern := base.recurring_pattern || fired_recurring
         medication_interaction_risk :=
           if interaction.isEmpty then base.medication_interaction_risk
           else interaction }) := by
  simp only [apply_history_adjustments, chronic_step, age_step, recurring_step,
    interaction_step, adjusted_risk_level, interaction_risk_of, age_escalation,
    List.foldl_cons, List.foldl_nil]
  cases hi : (if history.current_medications.isEmpty then []
      else check_medication_interactions current_symptoms history.current_medications).isEmpty <;>
    simp [hi, Nat.zero_le]

open HealthcareRoutingSystem in
/-- Auxiliary: the adjusted score never exceeds 100 when the base score is
within range. -/
theorem apply_history_adjustments_le (base : Analysis)
    (history : UserMedicalHistory) (current_symptoms : List String)
    (h : base.risk_score ≤ 100) :
    (apply_history_adjustments base history current_symptoms).risk_score ≤ 100 := by
  rw [apply_history_adjustments_eq]
  have h1 := chronic_step_le history.chronic_conditions base.risk_score h
  have h2 := age_step_le history.age _ h1
  simp only [interaction_step, recurring_step]
  split_ifs <;> simp_all [min_le_left]

/-- Auxiliary: monotonicity of the 70/40 rule-based level thresholds. -/
theorem determine_risk_level_mono (s t : ℚ) (h : s ≤ t) :
    level_rank (SymptomAnalyzer.determine_risk_level s) ≤
      level_rank (SymptomAnalyzer.determine_risk_level t) := by
  simp only [SymptomAnalyzer.determine_risk_level]
  split_ifs <;> simp [level_rank] <;> linarith

/-- Auxiliary: the offline level is red exactly on [70, inf). -/
theorem determine_risk_level_offline_eq_red (u : ℚ) (h : 70 ≤ u) :
    OfflineModels.determine_risk_level_offline u = "red" := by
  simp only [OfflineModels.determine_risk_level_offline]
  split_ifs with h1 h2 <;> try rfl
  · obtain ⟨_, h1b⟩ := h1
    exfalso
    linarith
  · obtain ⟨_, h2b⟩ := h2
    exfalso
    linarith

/-- Auxiliary: the offline level is amber on [40, 70). -/
theorem determine_risk_level_offline_eq_amber (u : ℚ) (h40 : 40 ≤ u) (h70 : u < 70) :
    OfflineModels.determine_risk_level_offline u = "amber" := by
  simp only [OfflineModels.determine_risk_level_offline]
  split_ifs with h1 h2 h3 h4 <;> try rfl
  · obtain ⟨_, h1b⟩ := h1
    exfalso
    linarith
  · obtain ⟨h3a, _⟩ := h3
    exfalso
    linarith
  · exfalso
    linarith
  · exact absurd ⟨h40, h70⟩ h2

/-- Auxiliary: the offline level is green below 40. -/
theorem determine_risk_level_offline_eq_green (u : ℚ) (h : u < 40) :
    OfflineModels.determine_risk_level_offline u = "green" := by
  simp only [OfflineModels.determine_risk_level_offline]
  split_ifs with h1 h2 h3 h4 <;> try rfl
  · obtain ⟨h2a, _⟩ := h2
    exfalso
    linarith
  · obtain ⟨h3a, _⟩ := h3
    exfalso
    linarith
  · exfalso
    linarith

/-- Auxiliary: monotonicity of the offline 40/70 thresholds with their
fallthrough branches. -/
theorem determine_risk_level_offline_mono (s t : ℚ) (h : s ≤ t) :
    level_rank (OfflineModels.determine_risk_level_offline s) ≤
      level_rank (OfflineModels.determine_risk_level_offline t) := by
  rcases lt_or_le s 40 with hs | hs
  · rw [determine_risk_level_offline_eq_green s hs]
    simp [level_rank]
  rcases lt_or_le s 70 with hs70 | hs70
  · rw [determine_risk_level_offline_eq_amber s hs hs70]
    rcases lt_or_le t 70 with ht | ht
    · rw [determine_risk_level_offline_eq_amber t (by linarith) ht]
    · rw [determine_risk_level_offline_eq_red t ht]
      simp [level_rank]
  · rw [determine_risk_level_offline_eq_red s hs70,
      determine_risk_level_offline_eq_red t (by linarith)]

/-- Auxiliary: monotonicity of the 80/50 adjusted-level thresholds. -/
theorem adjusted_risk_level_mono (s t : ℕ) (h : s ≤ t) :
    level_rank (HealthcareRoutingSystem.adjusted_risk_level s) ≤
      level_rank (HealthcareRoutingSystem.adjusted_risk_level t) := by
  simp only [HealthcareRoutingSystem.adjusted_risk_level]
  split_ifs <;> simp [level_rank] <;> omega

/-- C2: every scoring path is clamped into [0, 100] — the rule-based scorer
for all symptom lists, ages and genders; the offline weighted scorer (both
its raw weighted score and its reported integer score); and the history
adjuster whenever its base score is in range — and each of the three
level-from-score maps (70/40 rule-based, 40/70 offline, 80/50 adjusted) is
a monotone step function under the green < amber < red ordering. -/
theorem c2_score_clamped_level_monotone :
    (∀ (symptoms : List String) (age : ℕ) (gender : String),
      0 ≤ SymptomAnalyzer.calculate_rule_based_risk symptoms age gender ∧
      SymptomAnalyzer.calculate_rule_based_risk symptoms age gender ≤ 100) ∧
    (∀ (symptoms : List String) (age : ℕ),
      0 ≤ OfflineModels.assess_risk_offline_raw symptoms age ∧
      OfflineModels.assess_risk_offline_raw symptoms age ≤ 100 ∧
      (OfflineModels.assess_risk_offline symptoms age).1 ≤ 100) ∧
    (∀ (base : HealthcareRoutingSystem.Analysis)
        (history : HealthcareRoutingSystem.UserMedicalHistory)
        (current_symptoms : List String),
      base.risk_score ≤ 100 →
      (HealthcareRoutingSystem.apply_history_adjustments base history
        current_symptoms).risk_score ≤ 100) ∧
    (∀ s t : ℚ, s ≤ t →
      level_rank (SymptomAnalyzer.determine_risk_level s) ≤
        level_rank (SymptomAnalyzer.determine_risk_level t)) ∧
    (∀ s t : ℚ, s ≤ t →
      level_rank (OfflineModels.determine_risk_level_offline s) ≤
        level_rank (OfflineModels.determine_risk_level_offline t)) ∧
    (∀ s t : ℕ, s ≤ t →
      level_rank (HealthcareRoutingSystem.adjusted_risk_level s) ≤
        level_rank (HealthcareRoutingSystem.adjusted_risk_level t)) := by
  refine ⟨calculate_rule_based_risk_bounds, ?_,
    apply_history_adjustments_le, determine_risk_level_mono,
    determine_risk_level_offline_mono, adjusted_risk_level_mono⟩
  intro symptoms age
  obtain ⟨h0, h1⟩ := assess_risk_offline_raw_bounds symptoms age
  exact ⟨h0, h1, assess_risk_offline_score_le symptoms age⟩

/-- C2 witness: the clamp and monotonicity facts at concrete inputs (a
90-score base through the adjuster, and 30 vs 75 through the rule-based
level map). -/
theorem c2_score_clamped_level_monotone_witness :
    (HealthcareRoutingSystem.apply_history_adjustments base_analysis_90
      history_one_episode ["fever"]).risk_score ≤ 100 ∧
    level_rank (SymptomAnalyzer.determine_risk_level 30) ≤
      level_rank (SymptomAnalyzer.determine_risk_level 75) :=
  ⟨c2_score_clamped_level_monotone.2.2.1 base_analysis_90 history_one_episode
      ["fever"] (by norm_num [base_analysis_90]),
    c2_score_clamped_level_monotone.2.2.2.1 30 75 (by norm_num)⟩

open HealthcareRoutingSystem in
/-- C3: the history adjuster is the sequential pipeline — chronic-condition
multipliers from the static table (diabetes 1.3, hypertension 1.2,
heart_disease 1.5, asthma 1.4, kidney_disease 1.3) each followed by a clamp
to 100, then infant (0-2, times 2.0) and elderly (65-120, times 1.5)
escalation each clamped, then a flat clamped +10 for a recurring pattern,
then a flat clamped +15 for a medication interaction — and the final level
is recomputed from the adjusted score at the 80/50 thresholds. -/
theorem c3_history_adjustment_pipeline :
    (∀ (base : Analysis) (history : UserMedicalHistory)
        (current_symptoms : List String),
      apply_history_adjustments base history current_symptoms =
        (let fired_recurring :=
          has_recurring_pattern history.previous_symptoms current_symptoms
         let interaction := interaction_risk_of history current_symptoms
         let s4 := interaction_step (!interaction.isEmpty)
           (recurring_step fired_recurring
             (age_step history.age
               (chronic_step history.chronic_conditions base.risk_score)))
         { base with
           risk_score := s4
           risk_level := adjusted_risk_level s4
           recurring_pattern := base.recurring_pattern || fired_recurring
           medication_interaction_risk :=
             if interaction.isEmpty then base.medication_interaction_risk
             else interaction })) ∧
    chronic_condition_escalation =
      [("diabetes", 13/10), ("hypertension", 12/10), ("heart_disease", 15/10),
       ("asthma", 14/10), ("kidney_disease", 13/10)] ∧
    age_escalation = [⟨"infant", 0, 2, 2⟩, ⟨"elderly", 65, 120, 15/10⟩] ∧
    (∀ score : ℕ, adjusted_risk_level score =
      if 80 ≤ score then "red" else if 50 ≤ score then "amber" else "green") ∧
    (∀ (fired : Bool) (score : ℕ),
      recurring_step fired score = if fired then min 100 (score + 10) else score) ∧
    (∀ (fired : Bool) (score : ℕ),
      interaction_step fired score = if fired then min 100 (score + 15) else score) :=
  ⟨apply_history_adjustments_eq, rfl, rfl, fun _ => rfl, fun _ _ => rfl, fun _ _ => rfl⟩

open HealthcareRoutingSystem in
/-- C9 counterexample: a history holding exactly one stored episode that
shares two symptoms with the current complaint (and is among the last
three episodes) still gets neither the recurring flag nor the +10: the
source requires at least two stored episodes before the pattern can fire,
while the claim does not. -/
theorem c9_counterexample_single_episode :
    episode_fh ∈ history_one_episode.previous_symptoms.drop
      (history_one_episode.previous_symptoms.length - 3) ∧
    2 ≤ ((["fever", "headache"] : List String).dedup.filter
          (fun s => episode_fh.symptoms.contains s)).length ∧
    has_recurring_pattern history_one_episode.previous_symptoms
      ["fever", "headache"] = false ∧
    (apply_history_adjustments base_analysis_30 history_one_episode
      ["fever", "headache"]).recurring_pattern = false ∧
    (apply_history_adjustments base_analysis_30 history_one_episode
      ["fever", "headache"]).risk_score = 30 := by
  refine ⟨by decide, by decide, by decide, by decide, by decide⟩

open HealthcareRoutingSystem in
/-- C9 (amended): provided the history holds at least two stored episodes,
sharing at least two current symptoms with any of the last three episodes
adds a flat +10 (additive, clamped) to the score after the multiplicative
chronic/age steps and sets the recurring-pattern flag. -/
theorem c9_recurring_bonus (base : Analysis) (history : UserMedicalHistory)
    (current_symptoms : List String)
    (hlen : 2 ≤ history.previous_symptoms.length)
    (hshared : ∃ episode ∈ history.previous_symptoms.drop
        (history.previous_symptoms.length - 3),
      2 ≤ (current_symptoms.dedup.filter
            (fun s => episode.symptoms.contains s)).length) :
    (apply_history_adjustments base history current_symptoms).recurring_pattern = true ∧
    (history.current_medications = [] →
      (apply_history_adjustments base history current_symptoms).risk_score =
        min 100 (age_step history.age
          (chronic_step history.chronic_conditions base.risk_score) + 10)) := by
  have hrec : has_recurring_pattern history.previous_symptoms current_symptoms = true := by
    simp only [has_recurring_pattern]
    rw [if_neg (by omega)]
    rw [List.any_eq_true]
    obtain ⟨episode, hmem, hc⟩ := hshared
    exact ⟨episode, hmem, by simpa using hc⟩
  rw [apply_history_adjustments_eq]
  constructor
  · simp [hrec]
  · intro hmeds
    have hint : interaction_risk_of history current_symptoms = [] := by
      simp [interaction_risk_of, hmeds]
    simp [hint, hrec, interaction_step, recurring_step]

open HealthcareRoutingSystem in
/-- C9 witness: with two stored fever-headache episodes, the same complaint
sets the recurring flag and lifts the 30 base score to 40. -/
theorem c9_recurring_bonus_witness :
    (apply_history_adjustments base_analysis_30 history_two_episodes
      ["fever", "headache"]).recurring_pattern = true ∧
    (apply_history_adjustments base_analysis_30 history_two_episodes
      ["fever", "headache"]).risk_score = 40 := by
  have h := c9_recurring_bonus base_analysis_30 history_two_episodes
    ["fever", "headache"] (by decide) ⟨episode_fh, by decide, by decide⟩
  exact ⟨h.1, (h.2 rfl).trans (by decide)⟩

open HealthcareRoutingSystem in
/-- C4: no medicine whose name case-insensitively matches an allergy of the
history ever appears in safe_medicines (every safe medicine passes the
contraindication test), and every candidate medicine that fails the test —
for an allergy match or a static-interaction hit against the current
medications — is recorded as a contraindication entry instead. -/
theorem c4_medication_filtering (symptoms : List String)
    (history : UserMedicalHistory) :
    (∀ med ∈ (get_medication_suggestions symptoms history).safe_medicines,
      has_contraindication med.name history = false ∧
      ∀ allergy ∈ history.allergies, lowerStr allergy ≠ lowerStr med.name) ∧
    (∀ symptom ∈ symptoms, ∀ ci ∈ medication_database,
      condition_matches (lowerStr symptom) ci.1 = true →
      ∀ med ∈ ci.2.safe_medicines, has_contraindication med.name history = true →
      ("Avoid " ++ med.name ++ " due to allergy/interaction") ∈
        (get_medication_suggestions symptoms history).contraindications) := by
  constructor
  · intro med hmed
    simp only [get_medication_suggestions, List.mem_flatMap, List.mem_filter] at hmed
    obtain ⟨ci, _, _, hpass⟩ := hmed
    have hfalse : has_contraindication med.name history = false := by
      simpa using hpass
    refine ⟨hfalse, ?_⟩
    intro allergy hall heq
    have hany : history.allergies.any
        (fun a => lowerStr a == lowerStr med.name) = true := by
      rw [List.any_eq_true]
      exact ⟨allergy, hall, by simp [heq]⟩
    simp [has_contraindication, hany] at hfalse
  · intro symptom hsym ci hci hcond med hmed hcontra
    simp only [get_medication_suggestions, List.mem_flatMap]
    refine ⟨ci, ⟨symptom, hsym, ?_⟩, ?_⟩
    · simp only [matched_conditions, List.mem_filter]
      exact ⟨hci, hcond⟩
    · rw [List.mem_map]
      refine ⟨med, ?_, rfl⟩
      rw [List.mem_filter]
      exact ⟨hmed, hcontra⟩

open HealthcareRoutingSystem in
/-- C4 witness: with an aspirin allergy and a headache complaint, aspirin is
pushed into contraindications while a safe medicine (paracetamol) passes
the allergy check. -/
theorem c4_medication_filtering_witness :
    (∀ allergy ∈ history_aspirin_allergy.allergies,
      lowerStr allergy ≠ lowerStr "Paracetamol") ∧
    ("Avoid Aspirin due to allergy/interaction") ∈
      (get_medication_suggestions ["headache"] history_aspirin_allergy).contraindications := by
  constructor
  · exact ((c4_medication_filtering ["headache"] history_aspirin_allergy).1
      ⟨"Paracetamol", "500mg", "Every 6 hours", "As needed"⟩ (by decide)).2
  · exact (c4_medication_filtering ["headache"] history_aspirin_allergy).2
      "headache" (by decide)
      ("headache",
        { safe_medicines :=
            [⟨"Paracetamol", "500mg", "Every 6 hours", "As needed"⟩,
             ⟨"Aspirin", "300mg", "Every 6 hours", "As needed"⟩]
          home_remedies :=
            ["Rest in dark, quiet room", "Cold or warm compress",
             "Adequate hydration", "Gentle head massage"] })
      (by decide) (by decide)
      ⟨"Aspirin", "300mg", "Every 6 hours", "As needed"⟩ (by decide) (by decide)

open EnhancedSymptomAnalyzer in
/-- Auxiliary: insertion only adds the inserted element. -/
theorem insert_desc_mem (x z : DiseasePrediction) (l : List DiseasePrediction)
    (h : z ∈ insert_desc x l) : z = x ∨ z ∈ l := by
  induction l with
  | nil =>
    simp only [insert_desc, List.mem_singleton] at h
    exact Or.inl h
  | cons y ys ih =>
    simp only [insert_desc] at h
    split_ifs at h with hlt
    · rcases List.mem_cons.mp h with rfl | hz
      · exact Or.inr (List.mem_cons_self _ _)
      · rcases ih hz with rfl | hz'
        · exact Or.inl rfl
        · exact Or.inr (List.mem_cons_of_mem _ hz')
    · rcases List.mem_cons.mp h with rfl | hz
      · exact Or.inl rfl
      · exact Or.inr hz

open EnhancedSymptomAnalyzer in
/-- Auxiliary: insertion preserves the descending-confidence ordering. -/
theorem insert_desc_pairwise (x : DiseasePrediction) (l : List DiseasePrediction)
    (h : l.Pairwise (fun a b => b.confidence ≤ a.confidence)) :
    (insert_desc x l).Pairwise (fun a b => b.confidence ≤ a.confidence) := by
  induction l with
  | nil => simp [insert_desc]
  | cons y ys ih =>
    rw [List.pairwise_cons] at h
    obtain ⟨hy, hys⟩ := h
    simp only [insert_desc]
    split_ifs with hlt
    · rw [List.pairwise_cons]
      refine ⟨?_, ih hys⟩
      intro z hz
      rcases insert_desc_mem x z ys hz with rfl | hz'
      · exact le_of_lt hlt
      · exact hy z hz'
    · rw [List.pairwise_cons]
      refine ⟨?_, List.pairwise_cons.mpr ⟨hy, hys⟩⟩
      intro z hz
      rcases List.mem_cons.mp hz with rfl | hz'
      · exact not_lt.mp hlt
      · exact le_trans (hy z hz') (not_lt.mp hlt)

open EnhancedSymptomAnalyzer in
/-- Auxiliary: inserting an element leaves the sublist of any fixed
confidence value intact except for prepending the new element to its own
confidence class — the stability property of the insertion. -/
theorem insert_desc_filter (x : DiseasePrediction) (l : List DiseasePrediction)
    (c : ℚ) :
    (insert_desc x l).filter (fun p => decide (p.confidence = c)) =
      if x.confidence = c then
        x :: l.filter (fun p => decide (p.confidence = c))
      else l.filter (fun p => decide (p.confidence = c)) := by
  induction l with
  | nil =>
    by_cases hx : x.confidence = c <;> simp [insert_desc, List.filter, hx]
  | cons y ys ih =>
    by_cases hlt : x.confidence < y.confidence
    · have hins : insert_desc x (y :: ys) = y :: insert_desc x ys := by
        simp [insert_desc, hlt]
      rw [hins, List.filter_cons]
      by_cases hy : y.confidence = c
      · have hxne : ¬ x.confidence = c := by
          intro hh
          rw [hh, hy] at hlt
          exact lt_irrefl _ hlt
        rw [if_pos (by simp [hy]), ih, if_neg hxne, if_neg hxne,
          List.filter_cons, if_pos (by simp [hy])]
      · rw [if_neg (by simp [hy]), ih]
        by_cases hx : x.confidence = c
        · rw [if_pos hx, if_pos hx, List.filter_cons, if_neg (by simp [hy])]
        · rw [if_neg hx, if_neg hx, List.filter_cons, if_neg (by simp [hy])]
    · have hins : insert_desc x (y :: ys) = x :: y :: ys := by
        simp [insert_desc, hlt]
      rw [hins, List.filter_cons]
      by_cases hx : x.confidence = c
      · rw [if_pos (by simp [hx]), if_pos hx]
      · rw [if_neg (by simp [hx]), if_neg hx]

open EnhancedSymptomAnalyzer in
/-- Auxiliary: the stable insertion sort is sorted descending by
confidence. -/
theorem sort_desc_pairwise (l : List DiseasePrediction) :
    (sort_desc l).Pairwise (fun a b => b.confidence ≤ a.confidence) := by
  induction l with
  | nil => simp [sort_desc]
  | cons x xs ih => exact insert_desc_pairwise x (sort_desc xs) ih

open EnhancedSymptomAnalyzer in
/-- Auxiliary: sorting only permutes, so membership is preserved. -/
theorem sort_desc_mem (z : DiseasePrediction) (l : List DiseasePrediction)
    (h : z ∈ sort_desc l) : z ∈ l := by
  induction l with
  | nil => simp [sort_desc] at h
  | cons x xs ih =>
    simp only [sort_desc] at h
    rcases insert_desc_mem x z (sort_desc xs) h with rfl | hz
    · exact List.mem_cons_self _ _
    · exact List.mem_cons_of_mem _ (ih hz)

open EnhancedSymptomAnalyzer in
/-- Auxiliary: stability of the sort — within any one confidence value the
sorted output lists exactly the input's entries, in input order. -/
theorem sort_desc_filter (l : List DiseasePrediction) (c : ℚ) :
    (sort_desc l).filter (fun p => decide (p.confidence = c)) =
      l.filter (fun p => decide (p.confidence = c)) := by
  induction l with
  | nil => simp [sort_desc]
  | cons x xs ih =>
    simp only [sort_desc]
    rw [insert_desc_filter, List.filter_cons]
    by_cases hx : x.confidence = c
    · rw [if_pos hx, ih, if_pos (by simp [hx])]
    · rw [if_neg hx, ih, if_neg (by simp [hx])]

open EnhancedSymptomAnalyzer in
/-- C6: disease detection computes each eligible pattern's confidence as
symptomScore*0.7 + riskFactorScore*0.3 with a +0.1 bonus exactly when the
symptom score reaches 0.8 (every catalog pattern has a non-empty symptom
list, making the code's count test equivalent to the score test), clamps
to 1, includes a pattern only when its confidence reaches the configured
threshold, and returns at most five predictions sorted descending by
confidence, ties kept in catalog declaration order by sort stability. -/
theorem c6_disease_detection (symptoms : List String)
    (info : UserInfo) :
    detect_diseases symptoms info =
      (sort_desc (eligible_predictions symptoms info)).take 5 ∧
    (detect_diseases symptoms info).length ≤ 5 ∧
    (sort_desc (eligible_predictions symptoms info)).Pairwise
      (fun a b => b.confidence ≤ a.confidence) ∧
    (detect_diseases symptoms info).Pairwise
      (fun a b => b.confidence ≤ a.confidence) ∧
    (∀ c : ℚ,
      (sort_desc (eligible_predictions symptoms info)).filter
          (fun p => decide (p.confidence = c)) =
        (eligible_predictions symptoms info).filter
          (fun p => decide (p.confidence = c))) ∧
    (∀ p ∈ detect_diseases symptoms info, ∃ pattern ∈ disease_patterns,
      p = mk_prediction symptoms info pattern ∧
      p.confidence = round3 (disease_confidence symptoms pattern info) ∧
      pattern.confidence_threshold ≤ disease_confidence symptoms pattern info) ∧
    (∀ pattern ∈ disease_patterns,
      pattern.confidence_threshold ≤ disease_confidence symptoms pattern info →
      mk_prediction symptoms info pattern ∈ eligible_predictions symptoms info) ∧
    (∀ pattern ∈ disease_patterns, pattern.symptoms ≠ [] ∧
      (((pattern.symptoms.length : ℚ) * (8/10) ≤
          (matching_symptom_count symptoms pattern.symptoms : ℚ)) ↔
        (8/10 : ℚ) ≤ (matching_symptom_count symptoms pattern.symptoms : ℚ) /
          (pattern.symptoms.length : ℚ))) := by
  refine ⟨rfl, ?_, sort_desc_pairwise _, ?_, sort_desc_filter _, ?_, ?_, ?_⟩
  · simp only [detect_diseases, List.length_take]
    exact min_le_left _ _
  · exact (sort_desc_pairwise _).sublist (List.take_sublist _ _)
  · intro p hp
    have hp' : p ∈ sort_desc (eligible_predictions symptoms info) :=
      List.mem_of_mem_take hp
    have hp2 : p ∈ eligible_predictions symptoms info := sort_desc_mem _ _ hp'
    simp only [eligible_predictions, List.mem_map, List.mem_filter] at hp2
    obtain ⟨pattern, ⟨hpat, hthr⟩, rfl⟩ := hp2
    simp only [decide_eq_true_eq] at hthr
    exact ⟨pattern, hpat, rfl, rfl, hthr⟩
  · intro pattern hpat hthr
    simp only [eligible_predictions, List.mem_map]
    refine ⟨pattern, ?_, rfl⟩
    rw [List.mem_filter]
    exact ⟨hpat, by simpa using hthr⟩
  · intro pattern hpat
    have hne : pattern.symptoms ≠ [] := by
      fin_cases hpat <;> simp
    refine ⟨hne, ?_⟩
    have hpos : (0 : ℚ) < (pattern.symptoms.length : ℚ) := by
      have : 0 < pattern.symptoms.length := List.length_pos.mpr hne
      exact_mod_cast this
    rw [le_div_iff₀ hpos, mul_comm]

open EnhancedSymptomAnalyzer in
/-- C6 witness: the full myocardial-infarction complaint of a 55-year-old
diabetic man passes the 0.8 threshold and is listed. -/
theorem c6_disease_detection_witness :
    mk_prediction
        ["chest_pain", "difficulty_breathing", "sweating", "nausea", "left_arm_pain"]
        user_info_mi
        ⟨"myocardial_infarction",
          ["chest_pain", "difficulty_breathing", "sweating", "nausea", "left_arm_pain"],
          ["age>50", "male", "diabetes", "hypertension", "smoking"], "critical", 8/10⟩ ∈
      eligible_predictions
        ["chest_pain", "difficulty_breathing", "sweating", "nausea", "left_arm_pain"]
        user_info_mi := by
  have hm : matching_symptom_count
      ["chest_pain", "difficulty_breathing", "sweating", "nausea", "left_arm_pain"]
      ["chest_pain", "difficulty_breathing", "sweating", "nausea", "left_arm_pain"] = 5 := by
    decide
  have hrf : ((["age>50", "male", "diabetes", "hypertension", "smoking"] :
      List String).filter (risk_factor_matches user_info_mi)).length = 3 := by
    decide
  have hthr : (8/10 : ℚ) ≤ disease_confidence
      ["chest_pain", "difficulty_breathing", "sweating", "nausea", "left_arm_pain"]
      ⟨"myocardial_infarction",
        ["chest_pain", "difficulty_breathing", "sweating", "nausea", "left_arm_pain"],
        ["age>50", "male", "diabetes", "hypertension", "smoking"], "critical", 8/10⟩
      user_info_mi := by
    simp only [disease_confidence]
    norm_num [hm, hrf]
  exact (c6_disease_detection
      ["chest_pain", "difficulty_breathing", "sweating", "nausea", "left_arm_pain"]
      user_info_mi).2.2.2.2.2.2.1
    ⟨"myocardial_infarction",
      ["chest_pain", "difficulty_breathing", "sweating", "nausea", "left_arm_pain"],
      ["age>50", "male", "diabetes", "hypertension", "smoking"], "critical", 8/10⟩
    (by unfold disease_patterns; exact List.mem_cons_self _ _) hthr

open HealthcareRoutingSystem in
/-- C3 witness: the adjusted-level thresholds instantiated at a concrete
score. -/
theorem c3_history_adjustment_pipeline_witness :
    adjusted_risk_level 85 = "red" :=
  (c3_history_adjustment_pipeline.2.2.2.1 85).trans (by decide)

open SymptomAnalyzer in
/-- C7 witness: the empty-input branch instantiated at a concrete age and
gender. -/
theorem c7_safe_defaults_witness :
    analyze [] 30 "unknown" = default_response :=
  c7_safe_defaults.1 30 "unknown"
